import Mathlib

/-!
Shallow embedding of the Review & Scheduling Engine of the Re-Mem
repository: the FSRS scheduler (`update_fsrs_state`), the score-to-grade
mapping (`score_to_fsrs_rating`), the cascading answer validator
(`OpenAIValidator.validate`), the review use case
(`ReviewCardUseCase.execute`) and the event channel.

Modelling conventions:
- `f32` values (stability, difficulty, scores, similarities) are modelled
  as `ℚ`; `i32` fields as `ℤ`; `Uuid` and `DateTime<Utc>` as `ℕ`.
- Rust's saturating float-to-`i32` cast `as i32` (truncation toward zero,
  saturating at the `i32` bounds) is `f32_as_i32`.
- The impure `Utc::now()` is passed in as an explicit `now : ℕ` argument;
  `Uuid::new_v4()` as an explicit fresh-id argument.
- Network-bound calls (`check_embedding_similarity`,
  `check_llm_validation`, repository methods) are modelled as explicit
  oracle arguments carrying the `Result` the call would produce.
-/

/-- Enum `CardState` from `src/domain/entities.rs`. -/
inductive CardState where
  | New
  | Learning
  | Review
  | Relearning
deriving DecidableEq, Repr

/-- Structure `FsrsState` from `src/domain/entities.rs`. -/
structure FsrsState where
  stability : ℚ
  difficulty : ℚ
  elapsed_days : ℤ
  scheduled_days : ℤ
  reps : ℤ
  lapses : ℤ
  state : CardState
  last_review : Option ℕ
deriving DecidableEq, Repr

/-- Definition `FsrsState::default()` from `src/domain/entities.rs` lines 74-87. -/
def FsrsState.default : FsrsState :=
  { stability := 0
    difficulty := 0
    elapsed_days := 0
    scheduled_days := 0
    reps := 0
    lapses := 0
    state := CardState.New
    last_review := none }

/-- Rust's `as i32` cast on an `f32`: truncation toward zero, saturating
at the `i32` bounds. -/
def f32_as_i32 (q : ℚ) : ℤ :=
  max (min (if 0 ≤ q then ⌊q⌋ else ⌈q⌉) 2147483647) (-2147483648)

/-- Function `score_to_fsrs_rating` from
`src/application/use_cases/review_card.rs` lines 111-118. -/
def score_to_fsrs_rating (score : ℚ) : ℤ :=
  if score ≥ 9/10 then 4
  else if score ≥ 7/10 then 3
  else if score ≥ 1/2 then 2
  else 1

/-- Function `update_fsrs_state` from
`src/application/use_cases/review_card.rs` lines 121-186.  The Rust code
mutates `next` field by field; the `let` bindings below replay those
mutations in order (in particular `scheduled_days` is computed from the
already-multiplied stability). -/
def update_fsrs_state (current : FsrsState) (rating : ℤ) (now : ℕ) : FsrsState :=
  -- Initialize for first review: stability := 1.0, difficulty := 5.0
  let next : FsrsState :=
    { stability := if current.reps = 0 then 1 else current.stability
      difficulty := if current.reps = 0 then 5 else current.difficulty
      elapsed_days := 0
      scheduled_days := current.scheduled_days
      reps := current.reps + 1
      lapses := current.lapses
      state := current.state
      last_review := some now }
  if rating = 1 then
    -- Again - reset card to learning
    { next with
      lapses := next.lapses + 1
      stability := max (next.stability * (1/2)) (1/10)
      difficulty := min (next.difficulty + 1) 10
      scheduled_days := 1
      state := CardState.Relearning }
  else if rating = 2 then
    -- Hard - slightly increase interval
    let st := next.stability * (6/5)
    { next with
      stability := st
      difficulty := min (next.difficulty + 3/20) 10
      scheduled_days := max (f32_as_i32 (st * (6/5))) 1
      state := if next.reps ≤ 1 then CardState.Learning else CardState.Review }
  else if rating = 3 then
    -- Good - normal progression
    let st := next.stability * (5/2)
    { next with
      stability := st
      scheduled_days := max (f32_as_i32 (st * (5/2))) 1
      state := if next.reps ≤ 1 then CardState.Learning else CardState.Review }
  else if rating = 4 then
    -- Easy - large increase
    let st := next.stability * 4
    { next with
      stability := st
      difficulty := max (next.difficulty - 3/20) 1
      scheduled_days := max (f32_as_i32 (st * 4)) 1
      state := CardState.Review }
  else
    -- Default to Good
    let st := next.stability * (5/2)
    { next with
      stability := st
      scheduled_days := max (f32_as_i32 (st * (5/2))) 1
      state := CardState.Review }

/-- Grade sequences: repeated application of `update_fsrs_state`, one call
per review, threading the state (the way `ReviewCardUseCase.execute`
applies it to a card's stored state on each review). -/
def update_fsrs_seq (s : FsrsState) (gs : List ℤ) (now : ℕ) : FsrsState :=
  gs.foldl (fun t g => update_fsrs_state t g now) s

/-- The invariant claimed for every `MemoryState` held by a card:
stability ≥ 0, difficulty ∈ [1,10], scheduledDays ≥ 1, repetitions ≥ 0,
lapses ≥ 0, and repetitions = 0 implies lifecycle state New. -/
def CardFsrsInvariant (s : FsrsState) : Prop :=
  0 ≤ s.stability ∧ 1 ≤ s.difficulty ∧ s.difficulty ≤ 10 ∧
  1 ≤ s.scheduled_days ∧ 0 ≤ s.reps ∧ 0 ≤ s.lapses ∧
  (s.reps = 0 → s.state = CardState.New)

/-- Enum `ValidationMethod` from `src/domain/ports.rs`. -/
inductive ValidationMethod where
  | Exact
  | Embedding
  | Llm
deriving DecidableEq, Repr

/-- Function `ValidationMethod::as_str` from `src/domain/ports.rs` lines 41-47. -/
def ValidationMethod.as_str : ValidationMethod → String
  | ValidationMethod.Exact => "exact"
  | ValidationMethod.Embedding => "embedding"
  | ValidationMethod.Llm => "llm"

/-- Structure `ValidationResult` from `src/domain/ports.rs`. -/
structure ValidationResult where
  score : ℚ
  method : ValidationMethod
deriving DecidableEq, Repr

/-- Rust `str::trim`: remove leading and trailing whitespace, modelled on
the character list of the string. -/
def rust_trim (l : List Char) : List Char :=
  ((l.dropWhile Char.isWhitespace).reverse.dropWhile Char.isWhitespace).reverse

/-- Rust `str::to_lowercase`, modelled per character. -/
def rust_to_lowercase (l : List Char) : List Char :=
  l.map Char.toLower

/-- The normalization both validator strategies apply:
`x.trim().to_lowercase()`. -/
def normalize_answer (s : String) : List Char :=
  rust_to_lowercase (rust_trim s.data)

/-- Function `OpenAIValidator::check_exact_match` from
`src/infrastructure/ai_validator.rs` lines 41-50: case-insensitive,
trimmed comparison; `Some(1.0)` on equality, else `None`. -/
def check_exact_match (expected user_answer : String) : Option ℚ :=
  if normalize_answer expected = normalize_answer user_answer then some 1 else none

/-- Result of one run of the validation cascade, together with which of
the two external capabilities the run invoked (the call-count
observation of the test doubles). -/
structure CascadeOutcome (ε : Type) where
  result : Except ε ValidationResult
  embedding_called : Bool
  llm_called : Bool

/-- Function `OpenAIValidator::validate` from
`src/infrastructure/ai_validator.rs` lines 135-182.  The two network
calls `check_embedding_similarity` (whole call: embed both strings, then
cosine similarity, `Ok(0.0)` if fewer than two vectors come back) and
`check_llm_validation` (prompt, parse, clamp) are suspension points on
external services; they are modelled as oracle arguments
`embedding_result` / `llm_result` carrying the `Result` each call would
produce, and the outcome records whether each was invoked.  The
`embedding_threshold` field of `OpenAIValidator::new` is 0.85; the
borderline branch (`score >= 0.6`, only logging) and the catch-all `_`
branch behave identically, so both fall through to the LLM. -/
def OpenAIValidator.validate {ε : Type}
    (embedding_result llm_result : Except ε ℚ)
    (expected_answer user_answer : String) : CascadeOutcome ε :=
  -- Strategy 1: Exact match
  match check_exact_match expected_answer user_answer with
  | some score => ⟨Except.ok ⟨score, ValidationMethod.Exact⟩, false, false⟩
  | none =>
    -- Strategy 2: Embedding similarity
    match embedding_result with
    | Except.ok score =>
      if score ≥ 17/20 then ⟨Except.ok ⟨score, ValidationMethod.Embedding⟩, true, false⟩
      else
        -- Strategy 3: LLM validation (most expensive)
        match llm_result with
        | Except.ok s => ⟨Except.ok ⟨s, ValidationMethod.Llm⟩, true, true⟩
        | Except.error e => ⟨Except.error e, true, true⟩
    | Except.error _ =>
      match llm_result with
      | Except.ok s => ⟨Except.ok ⟨s, ValidationMethod.Llm⟩, true, true⟩
      | Except.error e => ⟨Except.error e, true, true⟩

/-- Structure `Card` from `src/domain/entities.rs` lines 101-112. -/
structure Card where
  id : ℕ
  user_id : ℕ
  deck_id : Option ℕ
  question : String
  answer : String
  answer_embedding : Option (List ℚ)
  fsrs_state : FsrsState
  created_at : ℕ
  updated_at : ℕ
deriving DecidableEq, Repr

/-- Constructor `Card::new` from `src/domain/entities.rs` lines 114-128, with the
fresh `Uuid::new_v4()` and `Utc::now()` passed explicitly. -/
def Card.new (id user_id : ℕ) (question answer : String) (now : ℕ) : Card :=
  { id := id
    user_id := user_id
    deck_id := none
    question := question
    answer := answer
    answer_embedding := none
    fsrs_state := FsrsState.default
    created_at := now
    updated_at := now }

/-- Structure `ReviewLog` from `src/domain/entities.rs` lines 142-153. -/
structure ReviewLog where
  id : ℕ
  card_id : ℕ
  user_id : ℕ
  user_answer : String
  expected_answer : String
  ai_score : ℚ
  validation_method : String
  fsrs_rating : ℤ
  created_at : ℕ
deriving DecidableEq, Repr

/-- Constructor `ReviewLog::new` from `src/domain/entities.rs` lines 155-177, with
the fresh id and `Utc::now()` passed explicitly. -/
def ReviewLog.new (id card_id user_id : ℕ) (user_answer expected_answer : String)
    (ai_score : ℚ) (validation_method : String) (fsrs_rating : ℤ) (now : ℕ) : ReviewLog :=
  { id := id
    card_id := card_id
    user_id := user_id
    user_answer := user_answer
    expected_answer := expected_answer
    ai_score := ai_score
    validation_method := validation_method
    fsrs_rating := fsrs_rating
    created_at := now }

/-- The `DomainEvent` enum as used by
`src/application/use_cases/review_card.rs` lines 81-88
(`CardReviewed { card_id, user_id, score, rating }`) and
`src/infrastructure/event_handlers.rs` lines 35-76
(`CardCreated { card_id, user_id }`).  The enum definition itself is not
in `src/shared/event_bus.rs` (that file holds a placeholder trait-based
bus); the constructors here are exactly the variants its callers
construct and match. -/
inductive DomainEvent where
  | CardReviewed (card_id user_id : ℕ) (score : ℚ) (rating : ℤ)
  | CardCreated (card_id user_id : ℕ)
deriving DecidableEq, Repr

/-- Structure `ReviewResult` from `src/application/use_cases/review_card.rs`
lines 101-108. -/
structure ReviewResult where
  card_id : ℕ
  ai_score : ℚ
  fsrs_rating : ℤ
  validation_method : ValidationMethod
  next_review_in_days : ℤ
deriving DecidableEq, Repr

/-- Everything `ReviewCardUseCase::execute` returns and writes: its
`Result`, the cards passed to `card_repository.update`, the logs passed
to `review_log_repository.create`, and the events passed to
`event_bus.publish`. -/
structure ReviewEffects where
  result : Except String ReviewResult
  updated_cards : List Card
  created_logs : List ReviewLog
  published_events : List DomainEvent

/-- Function `ReviewCardUseCase::execute` from
`src/application/use_cases/review_card.rs` lines 39-97.  The card store
is modelled by its `find_by_id` view; the validator call by the `Result`
it would produce for this card's answer/question (`validation`);
`Utc::now()` and the fresh log id are explicit arguments.  A missing
card becomes the `context("Card not found")` error; a validator error
propagates via `?`.  On success the updated card, the review log and the
`CardReviewed` event are recorded in order. -/
def ReviewCardUseCase.execute
    (find_by_id : ℕ → Option Card)
    (validation : Except String ValidationResult)
    (now log_id : ℕ)
    (card_id user_id : ℕ) (user_answer : String) : ReviewEffects :=
  -- 1. Get the card
  match find_by_id card_id with
  | none => ⟨Except.error "Card not found", [], [], []⟩
  | some card =>
    -- 2. Validate the answer using AI
    match validation with
    | Except.error e => ⟨Except.error e, [], [], []⟩
    | Except.ok v =>
      -- 3. Convert AI score to FSRS rating (1-4)
      let fsrs_rating := score_to_fsrs_rating v.score
      -- 4. Update FSRS state; 5. Save updated card
      let card2 := { card with
        fsrs_state := update_fsrs_state card.fsrs_state fsrs_rating now
        updated_at := now }
      -- 6. Create review log
      let log := ReviewLog.new log_id card_id user_id user_answer card.answer
        v.score v.method.as_str fsrs_rating now
      -- 7. Emit domain event
      ⟨Except.ok ⟨card_id, v.score, fsrs_rating, v.method, card2.fsrs_state.scheduled_days⟩,
        [card2], [log],
        [DomainEvent.CardReviewed card_id user_id v.score fsrs_rating]⟩

/-- Modelled from the spec: the Event Channel of §4.4.  The dispatching
event bus is missing from the sources: `src/shared/event_bus.rs` holds
only a placeholder whose `publish` logs and returns `Ok(())` without any
subscriber registry, while its callers construct enum events and
handlers (`StatisticsEventHandler.handle`) expect to be invoked per
event.  Per the spec, the bus holds the subscribers registered at
startup; each is a handler that may fail independently. -/
structure EventBus (ε : Type) where
  handlers : List (DomainEvent → Except ε Unit)

/-- Modelled from the spec: `publish(event)` of §4.4 delivers
synchronously-sequenced but independently-failing calls to every
currently registered subscriber; a subscriber's failure is logged (the
per-handler `Except` results are the log) and neither blocks the other
deliveries nor fails the publishing call, so the publisher always gets
`Ok`. -/
def EventBus.publish {ε : Type} (bus : EventBus ε) (event : DomainEvent) :
    Except ε (List (Except ε Unit)) :=
  Except.ok (bus.handlers.map (fun h => h event))

/-! ## Scheduler lemmas -/

/-- Stepping `update_fsrs_state` from any state whose counters are
nonnegative and whose numeric fields either satisfy the invariant bounds
or are about to be initialized (`reps = 0`) lands in `CardFsrsInvariant`,
for every grade. -/
lemma update_fsrs_state_invariant (s : FsrsState) (g : ℤ) (now : ℕ)
    (hreps : 0 ≤ s.reps) (hlapses : 0 ≤ s.lapses)
    (hs : s.reps = 0 ∨ (0 ≤ s.stability ∧ 1 ≤ s.difficulty ∧ s.difficulty ≤ 10)) :
    CardFsrsInvariant (update_fsrs_state s g now) := by
  have hST0 : 0 ≤ (if s.reps = 0 then (1 : ℚ) else s.stability) := by
    split_ifs with h
    · norm_num
    · exact (hs.resolve_left h).1
  have hD1 : 1 ≤ (if s.reps = 0 then (5 : ℚ) else s.difficulty) := by
    split_ifs with h
    · norm_num
    · exact (hs.resolve_left h).2.1
  have hD2 : (if s.reps = 0 then (5 : ℚ) else s.difficulty) ≤ 10 := by
    split_ifs with h
    · norm_num
    · exact (hs.resolve_left h).2.2
  unfold CardFsrsInvariant update_fsrs_state
  by_cases hg1 : g = 1
  · rw [if_pos hg1]
    dsimp only
    exact ⟨le_trans (by norm_num) (le_max_right _ _), le_min (by linarith) (by norm_num),
      min_le_right _ _, by omega, by omega, by omega, by intro h0; omega⟩
  by_cases hg2 : g = 2
  · rw [if_neg hg1, if_pos hg2]
    dsimp only
    exact ⟨mul_nonneg hST0 (by norm_num), le_min (by linarith) (by norm_num),
      min_le_right _ _, le_max_right _ _, by omega, by omega, by intro h0; omega⟩
  by_cases hg3 : g = 3
  · rw [if_neg hg1, if_neg hg2, if_pos hg3]
    dsimp only
    exact ⟨mul_nonneg hST0 (by norm_num), by linarith, by linarith,
      le_max_right _ _, by omega, by omega, by intro h0; omega⟩
  by_cases hg4 : g = 4
  · rw [if_neg hg1, if_neg hg2, if_neg hg3, if_pos hg4]
    dsimp only
    exact ⟨mul_nonneg hST0 (by norm_num), le_max_right _ _,
      max_le (by linarith) (by norm_num), le_max_right _ _, by omega, by omega,
      by intro h0; omega⟩
  · rw [if_neg hg1, if_neg hg2, if_neg hg3, if_neg hg4]
    dsimp only
    exact ⟨mul_nonneg hST0 (by norm_num), by linarith, by linarith,
      le_max_right _ _, by omega, by omega, by intro h0; omega⟩

/-- The invariant `CardFsrsInvariant` is preserved by any sequence of gradings. -/
lemma update_fsrs_seq_invariant (gs : List ℤ) (now : ℕ) :
    ∀ t : FsrsState, CardFsrsInvariant t → CardFsrsInvariant (update_fsrs_seq t gs now) := by
  induction gs with
  | nil => intro t ht; simpa [update_fsrs_seq] using ht
  | cons g rest ih =>
    intro t ht
    have hstep : CardFsrsInvariant (update_fsrs_state t g now) :=
      update_fsrs_state_invariant t g now ht.2.2.2.2.1 ht.2.2.2.2.2.1
        (Or.inr ⟨ht.1, ht.2.1, ht.2.2.1⟩)
    have hrest := ih (update_fsrs_state t g now) hstep
    simpa [update_fsrs_seq, List.foldl_cons] using hrest

/-- C2: for every state and grade in {1,2,3,4}, `update_fsrs_state`
increments `reps`, resets `elapsed_days` to 0 and sets `last_review`. -/
theorem advance_increments_reps_resets_elapsed (s : FsrsState) (g : ℤ) (now : ℕ)
    (hg : g = 1 ∨ g = 2 ∨ g = 3 ∨ g = 4) :
    (update_fsrs_state s g now).reps = s.reps + 1 ∧
    (update_fsrs_state s g now).elapsed_days = 0 ∧
    (update_fsrs_state s g now).last_review = some now := by
  unfold update_fsrs_state
  split_ifs <;> simp_all

/-- Witness for C2 at the default state with grade 2. -/
theorem advance_increments_reps_resets_elapsed_witness :
    ((2 : ℤ) = 1 ∨ (2 : ℤ) = 2 ∨ (2 : ℤ) = 3 ∨ (2 : ℤ) = 4) ∧
    ((update_fsrs_state FsrsState.default 2 7).reps = FsrsState.default.reps + 1 ∧
     (update_fsrs_state FsrsState.default 2 7).elapsed_days = 0 ∧
     (update_fsrs_state FsrsState.default 2 7).last_review = some 7) :=
  ⟨by norm_num,
   advance_increments_reps_resets_elapsed FsrsState.default 2 7 (by norm_num)⟩

/-- C3 counterexample: on a fresh state (repetitions 0) the out-of-range
grade 5 does not produce the same state as grade 3 (Good): the lifecycle
state is Review instead of Learning. -/
theorem out_of_range_grade_cex :
    update_fsrs_state FsrsState.default 5 0 ≠ update_fsrs_state FsrsState.default 3 0 := by
  intro h
  have hstate := congrArg FsrsState.state h
  simp [update_fsrs_state, FsrsState.default] at hstate

/-- C3 amended: an out-of-range grade agrees with Good (grade 3) on every
field except the lifecycle state, which it sets to Review unconditionally;
in particular the two coincide whenever the input state has at least one
prior repetition. -/
theorem out_of_range_grade_matches_good_except_lifecycle
    (s : FsrsState) (g : ℤ) (now : ℕ)
    (hg : ¬(g = 1 ∨ g = 2 ∨ g = 3 ∨ g = 4)) :
    (update_fsrs_state s g now).stability = (update_fsrs_state s 3 now).stability ∧
    (update_fsrs_state s g now).difficulty = (update_fsrs_state s 3 now).difficulty ∧
    (update_fsrs_state s g now).elapsed_days = (update_fsrs_state s 3 now).elapsed_days ∧
    (update_fsrs_state s g now).scheduled_days = (update_fsrs_state s 3 now).scheduled_days ∧
    (update_fsrs_state s g now).reps = (update_fsrs_state s 3 now).reps ∧
    (update_fsrs_state s g now).lapses = (update_fsrs_state s 3 now).lapses ∧
    (update_fsrs_state s g now).last_review = (update_fsrs_state s 3 now).last_review ∧
    (update_fsrs_state s g now).state = CardState.Review ∧
    (1 ≤ s.reps → update_fsrs_state s g now = update_fsrs_state s 3 now) := by
  push_neg at hg
  obtain ⟨h1, h2, h3, h4⟩ := hg
  unfold update_fsrs_state
  rw [if_neg h1, if_neg h2, if_neg h3, if_neg h4,
    if_neg (by decide : ¬((3 : ℤ) = 1)), if_neg (by decide : ¬((3 : ℤ) = 2)),
    if_pos (rfl : (3 : ℤ) = 3)]
  dsimp only
  refine ⟨rfl, rfl, rfl, rfl, rfl, rfl, rfl, rfl, fun hr => ?_⟩
  rw [if_neg (by omega : ¬(s.reps + 1 ≤ 1))]

/-- Witness for the amended C3 at grade 5 on a state with one prior
repetition. -/
theorem out_of_range_grade_matches_good_except_lifecycle_witness :
    ¬((5 : ℤ) = 1 ∨ (5 : ℤ) = 2 ∨ (5 : ℤ) = 3 ∨ (5 : ℤ) = 4) ∧
    (update_fsrs_state { FsrsState.default with reps := 1 } 5 9).state = CardState.Review ∧
    update_fsrs_state { FsrsState.default with reps := 1 } 5 9 =
      update_fsrs_state { FsrsState.default with reps := 1 } 3 9 :=
  ⟨by norm_num,
   (out_of_range_grade_matches_good_except_lifecycle
      { FsrsState.default with reps := 1 } 5 9 (by norm_num)).2.2.2.2.2.2.2.1,
   (out_of_range_grade_matches_good_except_lifecycle
      { FsrsState.default with reps := 1 } 5 9 (by norm_num)).2.2.2.2.2.2.2.2
     (by norm_num [FsrsState.default])⟩

/-- C4: grading a state with repetitions = 0 first overrides stability to
1.0 and difficulty to 5.0; grade 3 (Good) then yields Learning, stability
2.5, difficulty 5.0 and 6 scheduled days. -/
theorem first_review_good_initializes (s : FsrsState) (now : ℕ) (h : s.reps = 0) :
    (update_fsrs_state s 3 now).state = CardState.Learning ∧
    (update_fsrs_state s 3 now).stability = 5/2 ∧
    (update_fsrs_state s 3 now).difficulty = 5 ∧
    (update_fsrs_state s 3 now).scheduled_days = 6 := by
  have hfloor : (⌊((1 : ℚ) * (5/2) * (5/2))⌋ : ℤ) = 6 := by norm_num [Int.floor_eq_iff]
  simp [update_fsrs_state, f32_as_i32, h, hfloor]
  norm_num [max_def, min_def]

/-- Witness for C4 at the default state. -/
theorem first_review_good_initializes_witness :
    FsrsState.default.reps = 0 ∧
    ((update_fsrs_state FsrsState.default 3 4).state = CardState.Learning ∧
     (update_fsrs_state FsrsState.default 3 4).stability = 5/2 ∧
     (update_fsrs_state FsrsState.default 3 4).difficulty = 5 ∧
     (update_fsrs_state FsrsState.default 3 4).scheduled_days = 6) :=
  ⟨rfl, first_review_good_initializes FsrsState.default 4 rfl⟩

/-- C7: the score-to-grade mapping sends [0.9,∞) to 4, [0.7,0.9) to 3,
[0.5,0.7) to 2 and everything below 0.5 to 1. -/
theorem score_to_grade_mapping (s : ℚ) :
    (9/10 ≤ s → score_to_fsrs_rating s = 4) ∧
    (7/10 ≤ s ∧ s < 9/10 → score_to_fsrs_rating s = 3) ∧
    (1/2 ≤ s ∧ s < 7/10 → score_to_fsrs_rating s = 2) ∧
    (s < 1/2 → score_to_fsrs_rating s = 1) := by
  unfold score_to_fsrs_rating
  refine ⟨fun h => ?_, fun h => ?_, fun h => ?_, fun h => ?_⟩
  · rw [if_pos (show s ≥ 9/10 from h)]
  · obtain ⟨h1, h2⟩ := h
    rw [if_neg (show ¬(s ≥ 9/10) from not_le.mpr h2),
      if_pos (show s ≥ 7/10 from h1)]
  · obtain ⟨h1, h2⟩ := h
    rw [if_neg (show ¬(s ≥ 9/10) from not_le.mpr (by linarith)),
      if_neg (show ¬(s ≥ 7/10) from not_le.mpr h2),
      if_pos (show s ≥ 1/2 from h1)]
  · rw [if_neg (show ¬(s ≥ 9/10) from not_le.mpr (by linarith)),
      if_neg (show ¬(s ≥ 7/10) from not_le.mpr (by linarith)),
      if_neg (show ¬(s ≥ 1/2) from not_le.mpr h)]

/-- Witness for C7 at the four scores named by the spec. -/
theorem score_to_grade_mapping_witness :
    score_to_fsrs_rating (95/100) = 4 ∧ score_to_fsrs_rating (75/100) = 3 ∧
    score_to_fsrs_rating (55/100) = 2 ∧ score_to_fsrs_rating (30/100) = 1 :=
  ⟨(score_to_grade_mapping (95/100)).1 (by norm_num),
   (score_to_grade_mapping (75/100)).2.1 ⟨by norm_num, by norm_num⟩,
   (score_to_grade_mapping (55/100)).2.2.1 ⟨by norm_num, by norm_num⟩,
   (score_to_grade_mapping (30/100)).2.2.2 (by norm_num)⟩

/-- C8 counterexample: the initial state of a new card
(`Card::new`, i.e. `FsrsState::default()`) violates the claimed
invariant: its difficulty is 0 (not in [1,10]) and its scheduled days
are 0 (not ≥ 1). -/
theorem card_invariant_fails_on_initial_state :
    ¬ CardFsrsInvariant (Card.new 1 2 "q" "a" 0).fsrs_state := fun h =>
  absurd h.2.1 (by norm_num [Card.new, FsrsState.default])

/-- C8 amended: the initial state satisfies the counter and lifecycle
clauses of the invariant (stability ≥ 0, repetitions ≥ 0, lapses ≥ 0,
repetitions = 0 → New), and every state produced from it by at least one
grading satisfies the full claimed invariant. -/
theorem card_invariant_after_reviews :
    (0 ≤ FsrsState.default.stability ∧ 0 ≤ FsrsState.default.reps ∧
     0 ≤ FsrsState.default.lapses ∧
     (FsrsState.default.reps = 0 → FsrsState.default.state = CardState.New)) ∧
    ∀ (gs : List ℤ) (now : ℕ), gs ≠ [] →
      CardFsrsInvariant (update_fsrs_seq FsrsState.default gs now) := by
  constructor
  · exact ⟨le_refl 0, le_refl 0, le_refl 0, fun _ => rfl⟩
  · intro gs now hne
    match gs, hne with
    | g :: rest, _ =>
      have h1 : CardFsrsInvariant (update_fsrs_state FsrsState.default g now) :=
        update_fsrs_state_invariant _ _ _ (le_refl 0) (le_refl 0) (Or.inl rfl)
      have h2 := update_fsrs_seq_invariant rest now _ h1
      simpa [update_fsrs_seq, List.foldl_cons] using h2

/-- Witness for the amended C8 on the one-review sequence [3]. -/
theorem card_invariant_after_reviews_witness :
    ([3] : List ℤ) ≠ [] ∧
    CardFsrsInvariant (update_fsrs_seq FsrsState.default [3] 0) :=
  ⟨by simp, card_invariant_after_reviews.2 [3] 0 (by simp)⟩

/-! ## Validator, orchestrator and event channel theorems -/

/-- C1: the cascade short-circuits: normalized-equal answers return
score 1.0 with method Exact and invoke neither capability; otherwise an
embedding similarity ≥ 0.85 is returned with method Embedding without
invoking the LLM. -/
theorem validate_cascade_short_circuit {ε : Type}
    (embedding_result llm_result : Except ε ℚ) (expected user_answer : String) :
    (normalize_answer expected = normalize_answer user_answer →
      OpenAIValidator.validate embedding_result llm_result expected user_answer =
        ⟨Except.ok ⟨1, ValidationMethod.Exact⟩, false, false⟩) ∧
    (normalize_answer expected ≠ normalize_answer user_answer →
      ∀ sim : ℚ, embedding_result = Except.ok sim → 17/20 ≤ sim →
        OpenAIValidator.validate embedding_result llm_result expected user_answer =
          ⟨Except.ok ⟨sim, ValidationMethod.Embedding⟩, true, false⟩) := by
  constructor
  · intro h
    unfold OpenAIValidator.validate check_exact_match
    rw [if_pos h]
  · intro h sim hemb hsim
    subst hemb
    unfold OpenAIValidator.validate check_exact_match
    rw [if_neg h]
    dsimp only
    rw [if_pos (show sim ≥ 17/20 from hsim)]

/-- Witness for C1: "Paris" vs "  paris " short-circuits at Exact;
"Paris" vs "London" with similarity 0.9 short-circuits at Embedding. -/
theorem validate_cascade_short_circuit_witness :
    (OpenAIValidator.validate (Except.error () : Except Unit ℚ) (Except.error ())
        "Paris" "  paris " =
      ⟨Except.ok ⟨1, ValidationMethod.Exact⟩, false, false⟩) ∧
    (OpenAIValidator.validate (Except.ok (9/10) : Except Unit ℚ) (Except.error ())
        "Paris" "London" =
      ⟨Except.ok ⟨9/10, ValidationMethod.Embedding⟩, true, false⟩) :=
  ⟨(validate_cascade_short_circuit _ _ _ _).1 (by decide),
   (validate_cascade_short_circuit _ _ _ _).2 (by decide) (9/10) rfl (by norm_num)⟩

/-- C5: the cascade returns an error exactly when it reaches the LLM step
and that capability fails; an embedding failure is recovered locally (the
cascade continues to the LLM and returns its verdict when it succeeds),
while an LLM failure propagates unchanged. -/
theorem validate_error_iff_llm_fails {ε : Type}
    (embedding_result llm_result : Except ε ℚ) (expected user_answer : String) :
    (∀ err : ε,
      ((OpenAIValidator.validate embedding_result llm_result expected user_answer).result
          = Except.error err ↔
        (OpenAIValidator.validate embedding_result llm_result expected user_answer).llm_called
            = true ∧
          llm_result = Except.error err)) ∧
    (∀ eErr : ε, embedding_result = Except.error eErr →
      check_exact_match expected user_answer = none →
      (OpenAIValidator.validate embedding_result llm_result expected user_answer).llm_called
          = true ∧
        ∀ sc : ℚ, llm_result = Except.ok sc →
          (OpenAIValidator.validate embedding_result llm_result expected user_answer).result
            = Except.ok ⟨sc, ValidationMethod.Llm⟩) := by
  constructor
  · intro err
    unfold OpenAIValidator.validate
    rcases hcem : check_exact_match expected user_answer with _ | sc
    · rcases embedding_result with e | sim
      · rcases llm_result with le | ls
        · simp
        · simp
      · by_cases hth : sim ≥ 17/20
        · simp [hth]
        · rcases llm_result with le | ls
          · simp [hth]
          · simp [hth]
    · simp
  · intro eErr hemb hcem
    subst hemb
    unfold OpenAIValidator.validate
    rw [hcem]
    constructor
    · cases llm_result <;> rfl
    · intro sc hllm
      subst hllm
      rfl

/-- Witness for C5: with no exact match, a failing embedding capability
and an LLM verdict of 0.5, the cascade reaches the LLM and returns its
verdict. -/
theorem validate_error_iff_llm_fails_witness :
    (OpenAIValidator.validate (Except.error () : Except Unit ℚ) (Except.ok (1/2))
        "Paris" "London").llm_called = true ∧
    (OpenAIValidator.validate (Except.error () : Except Unit ℚ) (Except.ok (1/2))
        "Paris" "London").result = Except.ok ⟨1/2, ValidationMethod.Llm⟩ := by
  obtain ⟨h1, h2⟩ :=
    (validate_error_iff_llm_fails (Except.error ()) (Except.ok (1/2))
      "Paris" "London").2 () rfl (by decide)
  exact ⟨h1, h2 (1/2) rfl⟩

/-- C6: reviewing a card id the store does not hold returns the
"Card not found" error and performs no writes: no card update, no review
log, no published event. -/
theorem review_missing_card_no_writes
    (find_by_id : ℕ → Option Card) (validation : Except String ValidationResult)
    (now log_id card_id user_id : ℕ) (user_answer : String)
    (habsent : find_by_id card_id = none) :
    (ReviewCardUseCase.execute find_by_id validation now log_id card_id user_id
        user_answer).result = Except.error "Card not found" ∧
    (ReviewCardUseCase.execute find_by_id validation now log_id card_id user_id
        user_answer).updated_cards = [] ∧
    (ReviewCardUseCase.execute find_by_id validation now log_id card_id user_id
        user_answer).created_logs = [] ∧
    (ReviewCardUseCase.execute find_by_id validation now log_id card_id user_id
        user_answer).published_events = [] := by
  unfold ReviewCardUseCase.execute
  rw [habsent]
  exact ⟨rfl, rfl, rfl, rfl⟩

/-- Witness for C6 on the empty card store. -/
theorem review_missing_card_no_writes_witness :
    ((fun _ : ℕ => (none : Option Card)) 3 = none) ∧
    ((ReviewCardUseCase.execute (fun _ => none) (Except.ok ⟨1, ValidationMethod.Exact⟩)
        0 0 3 4 "a").result = Except.error "Card not found" ∧
     (ReviewCardUseCase.execute (fun _ => none) (Except.ok ⟨1, ValidationMethod.Exact⟩)
        0 0 3 4 "a").updated_cards = [] ∧
     (ReviewCardUseCase.execute (fun _ => none) (Except.ok ⟨1, ValidationMethod.Exact⟩)
        0 0 3 4 "a").created_logs = [] ∧
     (ReviewCardUseCase.execute (fun _ => none) (Except.ok ⟨1, ValidationMethod.Exact⟩)
        0 0 3 4 "a").published_events = []) :=
  ⟨rfl, review_missing_card_no_writes (fun _ => none)
    (Except.ok ⟨1, ValidationMethod.Exact⟩) 0 0 3 4 "a" rfl⟩

/-- C10: on a successful review (card found and validator verdict Ok),
the single card written back agrees with the loaded card on id, user id,
deck id, question, answer, answer embedding and creation time — only
`fsrs_state` and `updated_at` may change. -/
theorem review_updates_only_fsrs_and_timestamp
    (find_by_id : ℕ → Option Card) (validation : Except String ValidationResult)
    (now log_id card_id user_id : ℕ) (user_answer : String)
    (card : Card) (v : ValidationResult)
    (hfound : find_by_id card_id = some card)
    (hval : validation = Except.ok v) :
    ∃ card2 : Card,
      (ReviewCardUseCase.execute find_by_id validation now log_id card_id user_id
          user_answer).updated_cards = [card2] ∧
      card2.id = card.id ∧ card2.user_id = card.user_id ∧
      card2.deck_id = card.deck_id ∧ card2.question = card.question ∧
      card2.answer = card.answer ∧ card2.answer_embedding = card.answer_embedding ∧
      card2.created_at = card.created_at := by
  subst hval
  unfold ReviewCardUseCase.execute
  rw [hfound]
  dsimp only
  exact ⟨_, rfl, rfl, rfl, rfl, rfl, rfl, rfl, rfl⟩

/-- Witness for C10 on a one-card store. -/
theorem review_updates_only_fsrs_and_timestamp_witness :
    ((fun _ : ℕ => some (Card.new 1 2 "q" "a" 0)) 1 = some (Card.new 1 2 "q" "a" 0)) ∧
    ∃ card2 : Card,
      (ReviewCardUseCase.execute (fun _ => some (Card.new 1 2 "q" "a" 0))
          (Except.ok ⟨1, ValidationMethod.Exact⟩) 5 6 1 2 "a").updated_cards = [card2] ∧
      card2.id = (Card.new 1 2 "q" "a" 0).id ∧
      card2.user_id = (Card.new 1 2 "q" "a" 0).user_id ∧
      card2.deck_id = (Card.new 1 2 "q" "a" 0).deck_id ∧
      card2.question = (Card.new 1 2 "q" "a" 0).question ∧
      card2.answer = (Card.new 1 2 "q" "a" 0).answer ∧
      card2.answer_embedding = (Card.new 1 2 "q" "a" 0).answer_embedding ∧
      card2.created_at = (Card.new 1 2 "q" "a" 0).created_at :=
  ⟨rfl, review_updates_only_fsrs_and_timestamp (fun _ => some (Card.new 1 2 "q" "a" 0))
    (Except.ok ⟨1, ValidationMethod.Exact⟩) 5 6 1 2 "a"
    (Card.new 1 2 "q" "a" 0) ⟨1, ValidationMethod.Exact⟩ rfl rfl⟩

/-- C9 (event channel modelled from the spec): publishing delivers one
call to every registered subscriber — the i-th delivery is exactly the
i-th subscriber's own handling of the event, unaffected by any other
subscriber's failure — and publish itself always returns Ok to the
publisher. -/
theorem publish_delivers_to_all_subscribers {ε : Type}
    (bus : EventBus ε) (event : DomainEvent) :
    ∃ deliveries : List (Except ε Unit),
      EventBus.publish bus event = Except.ok deliveries ∧
      deliveries.length = bus.handlers.length ∧
      ∀ i (hi : i < bus.handlers.length),
        deliveries[i]? = some (bus.handlers[i] event) := by
  refine ⟨_, rfl, ?_, ?_⟩
  · simp [EventBus.publish]
  · intro i hi
    simp [EventBus.publish, List.getElem?_map, List.getElem?_eq_getElem hi]

/-- Witness for C9: a bus with one failing and one succeeding subscriber
delivers to both and returns Ok. -/
theorem publish_delivers_to_all_subscribers_witness :
    ∃ deliveries : List (Except Unit Unit),
      EventBus.publish ⟨[fun _ => Except.error (), fun _ => Except.ok ()]⟩
          (DomainEvent.CardCreated 0 0) = Except.ok deliveries ∧
      deliveries.length = 2 ∧
      deliveries[1]? = some (Except.ok ()) := by
  obtain ⟨ds, h1, h2, h3⟩ :=
    publish_delivers_to_all_subscribers
      (⟨[fun _ => Except.error (), fun _ => Except.ok ()]⟩ : EventBus Unit)
      (DomainEvent.CardCreated 0 0)
  exact ⟨ds, h1, by simpa using h2, by simpa using h3 1 (by norm_num)⟩
